import Mathlib

/-! Shallow embedding of the resolver logic of the apito hello-world Go plugin
(src/main.go).  Go maps with fixed keys are modelled as structures holding the
fields the resolvers read and write; Go slices become lists; a Go slice
expression and the integer division, both of which can panic at runtime,
return Option (none = panic).  Values a resolver obtains from the clock
(time.Now().Unix(), time.Now().Format(...)) are passed in as explicit
parameters, since they are inputs from the environment. -/

/-- Modelled from the spec: sdk.GetStringArg (spec section 4.1) — the SDK is an
external dependency, not part of this repository.  An absent argument yields
the caller-supplied default, a present one is returned unchanged. -/
def getStringArg (v : Option String) (d : String) : String := v.getD d

/-- Modelled from the spec: sdk.GetIntArg (spec section 4.1). -/
def getIntArg (v : Option Int) (d : Int) : Int := v.getD d

/-- Modelled from the spec: sdk.GetBoolArg (spec section 4.1). -/
def getBoolArg (v : Option Bool) (d : Bool) : Bool := v.getD d

/-- Nested address object of the sample users (src/main.go:353-358 etc.). -/
structure Address where
  street : String
  city : String
  state : String
  zip : String
deriving DecidableEq

/-- Nested key/value tag of the sample users (src/main.go:359-362 etc.). -/
structure UserTag where
  key : String
  val : String
deriving DecidableEq

/-- A user record as built by getUsersResolver and getUserProfileResolver
(src/main.go:347-402).  The createdAt strings come from time.Now and are
therefore parameters of the sample data below. -/
structure User where
  id : String
  name : String
  email : String
  username : String
  address : Address
  tags : List UserTag
  active : Bool
  createdAt : String
deriving DecidableEq

/-- First sample user of getUsersResolver (src/main.go:348-365). -/
def sampleUser1 (createdAt : String) : User :=
  { id := "1", name := "John Doe", email := "john.doe@example.com",
    username := "johndoe",
    address := { street := "123 Main St", city := "New York", state := "NY",
                 zip := "10001" },
    tags := [{ key := "department", val := "engineering" },
             { key := "level", val := "senior" }],
    active := true, createdAt := createdAt }

/-- Second sample user of getUsersResolver (src/main.go:366-383). -/
def sampleUser2 (createdAt : String) : User :=
  { id := "2", name := "Jane Smith", email := "jane.smith@example.com",
    username := "janesmith",
    address := { street := "456 Oak Ave", city := "Los Angeles", state := "CA",
                 zip := "90210" },
    tags := [{ key := "department", val := "design" },
             { key := "level", val := "mid" }],
    active := false, createdAt := createdAt }

/-- Third sample user of getUsersResolver (src/main.go:384-401). -/
def sampleUser3 (createdAt : String) : User :=
  { id := "3", name := "Bob Johnson", email := "bob.johnson@example.com",
    username := "bobjohnson",
    address := { street := "789 Pine Rd", city := "Chicago", state := "IL",
                 zip := "60601" },
    tags := [{ key := "department", val := "marketing" },
             { key := "level", val := "junior" }],
    active := true, createdAt := createdAt }

/-- The sample user collection of getUsersResolver (src/main.go:347-402),
parameterised by the three time-dependent createdAt strings. -/
def sampleUsers (c1 c2 c3 : String) : List User :=
  [sampleUser1 c1, sampleUser2 c2, sampleUser3 c3]

/-- Go slice expression s[low:high] as it occurs in the two resolvers, where
high never exceeds len(s): defined exactly when 0 ≤ low ≤ high ≤ len(s), and
a panic (slice bounds out of range) otherwise, modelled as none. -/
def goSlice {α : Type} (xs : List α) (low high : Int) : Option (List α) :=
  if 0 ≤ low ∧ low ≤ high ∧ high ≤ (xs.length : Int) then
    some ((xs.take high.toNat).drop low.toNat)
  else
    none

/-- The active-status filter loop of getUsersResolver (src/main.go:404-411):
starting from a nil slice, append every user whose active flag equals the
requested filter value. -/
def filterActive (activeFilter : Bool) (users : List User) : List User :=
  users.foldl (fun acc u => if u.active == activeFilter then acc ++ [u] else acc) []

/-- getUsersResolver (src/main.go:335-435) after argument parsing: limit,
offset and activeFilter are the parsed arguments (the SDK accessors replace
absent arguments by the defaults 10, 0, true at lines 340-342), users is the
sample collection of lines 347-402.  Logging is elided.  The slice expression
filteredUsers[start:end] at line 423 follows the two upper-bound clamps of
lines 416-421; it panics when start is negative or start > end. -/
def getUsersResolver (limit offset : Int) (activeFilter : Bool) (users : List User) :
    Option (List User) :=
  let filteredUsers := filterActive activeFilter users
  let start := offset
  let stop := offset + limit
  let start := if start > (filteredUsers.length : Int) then (filteredUsers.length : Int) else start
  let stop := if stop > (filteredUsers.length : Int) then (filteredUsers.length : Int) else stop
  goSlice filteredUsers start stop

/-- A product record of getProductsPaginatedResolver (src/main.go:450-478).
The Go price field is a float used only for display; it is kept here as its
decimal rendering (the %.2f formatting at line 517 prints exactly this string
for the three literals), since floating point itself is outside the scope of
the embedding and no resolver computes with it. -/
structure Product where
  id : String
  name : String
  description : String
  price : String
  stock : Int
  tags : List String
  categories : List String
deriving DecidableEq

/-- First sample product (src/main.go:451-459). -/
def product1 : Product :=
  { id := "1", name := "Laptop", description := "High-performance laptop",
    price := "999.99", stock := 10, tags := ["electronics", "computers"],
    categories := ["electronics", "office"] }

/-- Second sample product (src/main.go:460-468). -/
def product2 : Product :=
  { id := "2", name := "Coffee Mug", description := "Ceramic coffee mug",
    price := "12.99", stock := 50, tags := ["kitchen", "drinkware"],
    categories := ["home", "kitchen"] }

/-- Third sample product (src/main.go:469-477). -/
def product3 : Product :=
  { id := "3", name := "Book", description := "Programming book",
    price := "29.99", stock := 25, tags := ["education", "programming"],
    categories := ["books", "education"] }

/-- The sample product collection of getProductsPaginatedResolver
(src/main.go:450-478). -/
def allProducts : List Product := [product1, product2, product3]

/-- The category filter of getProductsPaginatedResolver (src/main.go:480-495):
when a non-empty category is given, append every product one of whose
categories equals it (the inner loop with break at lines 486-491 is exactly
membership); otherwise the collection passes through unchanged. -/
def filterByCategory (category : String) (products : List Product) : List Product :=
  if category ≠ "" then
    products.foldl (fun acc p => if p.categories.contains category then acc ++ [p] else acc) []
  else
    products

/-- The string projection of a page item (src/main.go:514-520):
"name - description ($price)". -/
def productSummary (p : Product) : String :=
  p.name ++ " - " ++ p.description ++ " ($" ++ p.price ++ ")"

/-- The paginated response map built at src/main.go:522-532. -/
structure PaginatedResponse where
  items : List String
  totalCount : Int
  pageSize : Int
  currentPage : Int
  totalPages : Int
  hasNextPage : Bool
  hasPreviousPage : Bool
  success : Bool
  message : String
deriving DecidableEq

/-- getProductsPaginatedResolver (src/main.go:438-536) after argument parsing:
page, pageSize and category are the parsed arguments (defaults 1, 5, "" at
lines 443-445), products the sample collection.  Fidelity notes: Go integer
division truncates toward zero (Int.tdiv) and panics when pageSize = 0
(line 499); the conditional clamp of end at lines 505-508 computes
min (offset + pageSize) total; the slice expression at line 509 panics when
offset is negative or exceeds the clamped end; the final match-to-map is the
string projection loop of lines 514-520. -/
def getProductsPaginatedResolver (page pageSize : Int) (category : String)
    (products : List Product) : Option PaginatedResponse :=
  let filteredProducts := filterByCategory category products
  let total : Int := (filteredProducts.length : Int)
  if pageSize = 0 then none
  else
    let totalPages := Int.tdiv (total + pageSize - 1) pageSize
    let offset := (page - 1) * pageSize
    let pageItemsOpt : Option (List Product) :=
      if offset < total then
        goSlice filteredProducts offset (min (offset + pageSize) total)
      else
        some []
    pageItemsOpt.map fun pageItems =>
      { items := pageItems.map productSummary
        totalCount := total
        pageSize := pageSize
        currentPage := page
        totalPages := totalPages
        hasNextPage := decide (page < totalPages)
        hasPreviousPage := decide (1 < page)
        success := true
        message := "Retrieved " ++ toString pageItems.length ++ " products" }

/-- The createUser input object (src/main.go:544-548): three optional string
fields extracted with default "". -/
structure CreateUserInput where
  name : Option String
  email : Option String
  username : Option String
deriving DecidableEq

/-- A validation error entry of the mutation envelope (src/main.go:559-564). -/
structure ValidationError where
  code : String
  message : String
  field : String
  details : List String
deriving DecidableEq

/-- The new-user record built on the success path (src/main.go:570-577). -/
structure NewUser where
  id : String
  name : String
  email : String
  username : String
  active : Bool
  createdAt : String
deriving DecidableEq

/-- The mutation envelope returned by createUserResolver
(src/main.go:554-566 and 580-585). -/
structure MutationEnvelope where
  success : Bool
  message : String
  data : Option NewUser
  errors : Option (List ValidationError)
deriving DecidableEq

/-- createUserResolver (src/main.go:539-589) after argument parsing.
nowUnix is time.Now().Unix() at line 571 (Go renders it with %d, i.e. the
decimal string), nowFormatted is time.Now().Format(time.RFC3339) at line 576;
both are environment inputs.  Logging is elided. -/
def createUserResolver (input : CreateUserInput) (nowUnix : Int) (nowFormatted : String) :
    MutationEnvelope :=
  let name := getStringArg input.name ""
  let email := getStringArg input.email ""
  let username := getStringArg input.username ""
  if name = "" ∨ email = "" ∨ username = "" then
    { success := false
      message := "Name, email, and username are required"
      data := none
      errors := some [{ code := "VALIDATION_ERROR"
                        message := "Missing required fields"
                        field := "name,email,username"
                        details := ["All fields are required for user creation"] }] }
  else
    { success := true
      message := "User created successfully"
      data := some { id := "user_" ++ toString nowUnix
                     name := name
                     email := email
                     username := username
                     active := true
                     createdAt := nowFormatted }
      errors := none }

/-! Helper lemmas about the embedded operations. -/

/-- An append-accumulate loop (Go: append inside a range loop guarded by a
predicate) is List.filter. -/
theorem foldl_append_filter {α : Type} (p : α → Bool) (l acc : List α) :
    l.foldl (fun acc x => if p x then acc ++ [x] else acc) acc = acc ++ l.filter p := by
  induction l generalizing acc with
  | nil => simp
  | cons x xs ih =>
    cases hp : p x with
    | true => simp [hp, ih, List.filter_cons]
    | false => simp [hp, ih, List.filter_cons]

/-- The user filter loop is the stable filter by the active flag. -/
theorem filterActive_eq_filter (f : Bool) (users : List User) :
    filterActive f users = users.filter (fun u => u.active == f) := by
  unfold filterActive
  simpa using foldl_append_filter (fun u => u.active == f) users []

/-- For a non-empty category the product filter loop is the stable filter by
category membership. -/
theorem filterByCategory_eq_filter (category : String) (products : List Product)
    (hc : category ≠ "") :
    filterByCategory category products =
      products.filter (fun p => p.categories.contains category) := by
  simpa [filterByCategory, hc] using
    foldl_append_filter (fun p : Product => p.categories.contains category) products []

/-- For the empty category the product filter is the identity. -/
theorem filterByCategory_empty (products : List Product) :
    filterByCategory "" products = products := by
  simp [filterByCategory]

/-- A Go slice expression with in-range bounds evaluates to the corresponding
take/drop window. -/
theorem goSlice_eq_some {α : Type} (xs : List α) (low high : Int)
    (h0 : 0 ≤ low) (h1 : low ≤ high) (h2 : high ≤ (xs.length : Int)) :
    goSlice xs low high = some ((xs.take high.toNat).drop low.toNat) := by
  simp [goSlice, h0, h1, h2]

/-- Shape of every non-panicking run of getProductsPaginatedResolver: once
pageSize is non-zero and the page-items slice evaluates, the response record
is built field by field as at src/main.go:522-532. -/
theorem getProductsPaginated_some (page pageSize : Int) (category : String)
    (products : List Product) (hsize : pageSize ≠ 0) (pageItems : List Product)
    (hpi : (if (page - 1) * pageSize < ((filterByCategory category products).length : Int) then
              goSlice (filterByCategory category products) ((page - 1) * pageSize)
                (min ((page - 1) * pageSize + pageSize)
                  ((filterByCategory category products).length : Int))
            else some []) = some pageItems) :
    getProductsPaginatedResolver page pageSize category products = some
      { items := pageItems.map productSummary
        totalCount := ((filterByCategory category products).length : Int)
        pageSize := pageSize
        currentPage := page
        totalPages := Int.tdiv (((filterByCategory category products).length : Int)
          + pageSize - 1) pageSize
        hasNextPage := decide (page < Int.tdiv
          (((filterByCategory category products).length : Int) + pageSize - 1) pageSize)
        hasPreviousPage := decide (1 < page)
        success := true
        message := "Retrieved " ++ toString pageItems.length ++ " products" } := by
  simp only [getProductsPaginatedResolver]
  rw [if_neg hsize, hpi]
  rfl

/-- Go's (total + pageSize - 1) / pageSize is the rational ceiling of
total / pageSize when pageSize is positive and total is a collection size. -/
theorem tdiv_pred_eq_ceil (N : ℕ) (p : ℤ) (hp : 0 < p) :
    Int.tdiv ((N : ℤ) + p - 1) p = ⌈((N : ℚ) / (p : ℚ))⌉ := by
  have ha : (0 : ℤ) ≤ (N : ℤ) + p - 1 := by omega
  rw [Int.tdiv_eq_ediv ha (le_of_lt hp)]
  have hmod := Int.ediv_add_emod ((N : ℤ) + p - 1) p
  have hr0 : 0 ≤ ((N : ℤ) + p - 1) % p := Int.emod_nonneg _ (by omega)
  have hr1 : ((N : ℤ) + p - 1) % p < p := Int.emod_lt_of_pos _ hp
  have hkey : p * (((N : ℤ) + p - 1) / p) = (N : ℤ) + p - 1 - ((N : ℤ) + p - 1) % p := by
    omega
  have hub : (N : ℤ) ≤ (((N : ℤ) + p - 1) / p) * p := by
    rw [mul_comm, hkey]; omega
  have hlb : ((((N : ℤ) + p - 1) / p) - 1) * p < (N : ℤ) := by
    have hexp : ((((N : ℤ) + p - 1) / p) - 1) * p = p * (((N : ℤ) + p - 1) / p) - p := by
      ring
    rw [hexp, hkey]; omega
  have hp' : (0 : ℚ) < (p : ℚ) := by exact_mod_cast hp
  refine (Int.ceil_eq_iff.mpr ⟨?_, ?_⟩).symm
  · rw [lt_div_iff₀ hp']
    exact_mod_cast hlb
  · rw [div_le_iff₀ hp']
    exact_mod_cast hub

/-- A string with a non-empty left part is non-empty. -/
theorem append_left_ne_empty (s t : String) (h : s.length ≠ 0) : s ++ t ≠ "" := by
  intro he
  have hl := congrArg String.length he
  rw [String.length_append] at hl
  have h0 : ("" : String).length = 0 := rfl
  omega

/-- A string with a non-empty right part is non-empty. -/
theorem append_right_ne_empty (s t : String) (h : t.length ≠ 0) : s ++ t ≠ "" := by
  intro he
  have hl := congrArg String.length he
  rw [String.length_append] at hl
  have h0 : ("" : String).length = 0 := rfl
  omega

/-- String append cancels on the left. -/
theorem string_append_left_cancel (s a b : String) (h : s ++ a = s ++ b) : a = b := by
  have hd := congrArg String.data h
  simp only [String.data_append] at hd
  exact String.ext (List.append_cancel_left hd)

/-- Validation branch of createUserResolver (src/main.go:553-567): any empty
required field yields the fixed error envelope. -/
theorem createUser_invalid_shape (input : CreateUserInput) (nowUnix : Int)
    (nowFormatted : String)
    (h : getStringArg input.name "" = "" ∨ getStringArg input.email "" = "" ∨
         getStringArg input.username "" = "") :
    createUserResolver input nowUnix nowFormatted =
      { success := false
        message := "Name, email, and username are required"
        data := none
        errors := some [{ code := "VALIDATION_ERROR"
                          message := "Missing required fields"
                          field := "name,email,username"
                          details := ["All fields are required for user creation"] }] } := by
  simp only [createUserResolver]
  rw [if_pos h]

/-- Success branch of createUserResolver (src/main.go:569-588): all required
fields non-empty yields the success envelope with the synthesized id. -/
theorem createUser_valid_shape (input : CreateUserInput) (nowUnix : Int)
    (nowFormatted : String)
    (h : ¬(getStringArg input.name "" = "" ∨ getStringArg input.email "" = "" ∨
           getStringArg input.username "" = "")) :
    createUserResolver input nowUnix nowFormatted =
      { success := true
        message := "User created successfully"
        data := some { id := "user_" ++ toString nowUnix
                       name := getStringArg input.name ""
                       email := getStringArg input.email ""
                       username := getStringArg input.username ""
                       active := true
                       createdAt := nowFormatted }
        errors := none } := by
  simp only [createUserResolver]
  rw [if_neg h]

/-! Claim theorems. -/

/-- C1 (claim refuted by the code): getProductsPaginated does NOT clamp a
non-positive pageSize to 1.  At pageSize = 0 (page 1, no category filter) the
totalPages computation at src/main.go:499 divides by zero and the resolver
panics instead of returning normally; at pageSize = -1 the slice expression
at line 509 receives end = -1 and panics as well.  Both runs are modelled as
none. -/
theorem getProductsPaginated_no_pageSize_clamp :
    getProductsPaginatedResolver 1 0 "" allProducts = none ∧
    getProductsPaginatedResolver 1 (-1) "" allProducts = none := by decide

/-- C2: for every product collection and category (hence every filtered size
N), every pageSize > 0 and every page ≥ 1, getProductsPaginated returns a
response whose totalPages is the rational ceiling of N / pageSize, whose
hasNextPage is page < totalPages, and whose hasPreviousPage is page > 1. -/
theorem getProductsPaginated_pagination_metadata (page pageSize : Int) (category : String)
    (products : List Product) (hpage : 1 ≤ page) (hsize : 0 < pageSize) :
    ∃ resp, getProductsPaginatedResolver page pageSize category products = some resp ∧
      resp.totalPages = ⌈(((filterByCategory category products).length : ℚ) / (pageSize : ℚ))⌉ ∧
      (resp.hasNextPage = true ↔ page < resp.totalPages) ∧
      (resp.hasPreviousPage = true ↔ 1 < page) := by
  have hoff0 : 0 ≤ (page - 1) * pageSize := mul_nonneg (by omega) (by omega)
  obtain ⟨pageItems, hpi⟩ :
      ∃ l, (if (page - 1) * pageSize < ((filterByCategory category products).length : Int) then
              goSlice (filterByCategory category products) ((page - 1) * pageSize)
                (min ((page - 1) * pageSize + pageSize)
                  ((filterByCategory category products).length : Int))
            else some []) = some l := by
    by_cases hc : (page - 1) * pageSize < ((filterByCategory category products).length : Int)
    · rw [if_pos hc]
      exact ⟨_, goSlice_eq_some _ _ _ hoff0
        (le_min (le_add_of_nonneg_right (le_of_lt hsize)) (le_of_lt hc)) (min_le_right _ _)⟩
    · exact ⟨[], by rw [if_neg hc]⟩
  refine ⟨_, getProductsPaginated_some page pageSize category products (by omega) pageItems hpi,
    ?_, ?_, ?_⟩
  · exact tdiv_pred_eq_ceil _ _ hsize
  · simp
  · simp

/-- Witness for C2 at page 1, pageSize 5, no category, sample products. -/
theorem getProductsPaginated_pagination_metadata_witness :
    ∃ resp, getProductsPaginatedResolver 1 5 "" allProducts = some resp ∧
      resp.totalPages = ⌈(((filterByCategory "" allProducts).length : ℚ) / (((5 : Int)) : ℚ))⌉ ∧
      (resp.hasNextPage = true ↔ 1 < resp.totalPages) ∧
      (resp.hasPreviousPage = true ↔ (1 : Int) < 1) :=
  getProductsPaginated_pagination_metadata 1 5 "" allProducts (by decide) (by decide)

/-- C3 (claim refuted by the code): getUsers clamps offset and end only from
above, never to 0.  With the seed users (2 active) and active=true, a negative
offset (-1, limit 10) reaches the slice expression at src/main.go:423 with
start = -1 and panics; likewise a negative limit (offset 0, limit -1) yields
end = -1 < start and panics.  Both runs are modelled as none, refuting that
the resolver clamps offset into [0, N] for every argument including negative
values. -/
theorem getUsers_negative_args_crash :
    getUsersResolver 10 (-1) true (sampleUsers "" "" "") = none ∧
    getUsersResolver (-1) 0 true (sampleUsers "" "" "") = none := by decide

/-- C4 counterexample: invoking createUser with only name missing
(name="", email="a@b.com", username="bob") yields an error whose field is the
fixed string "name,email,username" — not the comma-joined list of exactly the
missing field names, which would be "name". -/
theorem createUser_field_lists_all_fields :
    (createUserResolver ⟨some "", some "a@b.com", some "bob"⟩ 100 "t").errors =
      some [{ code := "VALIDATION_ERROR"
              message := "Missing required fields"
              field := "name,email,username"
              details := ["All fields are required for user creation"] }] ∧
    ("name,email,username" : String) ≠ "name" := by decide

/-- C4 amended: whenever at least one required field is empty, createUser
returns success=false, data=null and exactly one validation error with code
"VALIDATION_ERROR", message "Missing required fields", and field equal to the
constant comma-joined list of all three required field names, regardless of
which fields are missing. -/
theorem createUser_validation_error (input : CreateUserInput) (nowUnix : Int)
    (nowFormatted : String)
    (h : getStringArg input.name "" = "" ∨ getStringArg input.email "" = "" ∨
         getStringArg input.username "" = "") :
    createUserResolver input nowUnix nowFormatted =
      { success := false
        message := "Name, email, and username are required"
        data := none
        errors := some [{ code := "VALIDATION_ERROR"
                          message := "Missing required fields"
                          field := "name,email,username"
                          details := ["All fields are required for user creation"] }] } :=
  createUser_invalid_shape input nowUnix nowFormatted h

/-- Witness for C4 at name="", email="a@b.com", username="bob". -/
theorem createUser_validation_error_witness :
    createUserResolver ⟨some "", some "a@b.com", some "bob"⟩ 100 "t" =
      { success := false
        message := "Name, email, and username are required"
        data := none
        errors := some [{ code := "VALIDATION_ERROR"
                          message := "Missing required fields"
                          field := "name,email,username"
                          details := ["All fields are required for user creation"] }] } :=
  createUser_validation_error ⟨some "", some "a@b.com", some "bob"⟩ 100 "t" (by decide)

/-- C5: every envelope returned by createUser satisfies the mutation-envelope
invariant — success=false implies data=null and errors non-null, success=true
implies errors=null and data non-null. -/
theorem createUser_envelope_invariant (input : CreateUserInput) (nowUnix : Int)
    (nowFormatted : String) :
    ((createUserResolver input nowUnix nowFormatted).success = false →
      (createUserResolver input nowUnix nowFormatted).data = none ∧
      (createUserResolver input nowUnix nowFormatted).errors ≠ none) ∧
    ((createUserResolver input nowUnix nowFormatted).success = true →
      (createUserResolver input nowUnix nowFormatted).errors = none ∧
      (createUserResolver input nowUnix nowFormatted).data ≠ none) := by
  by_cases h : getStringArg input.name "" = "" ∨ getStringArg input.email "" = "" ∨
      getStringArg input.username "" = ""
  · rw [createUser_invalid_shape input nowUnix nowFormatted h]
    simp
  · rw [createUser_valid_shape input nowUnix nowFormatted h]
    simp

/-- Witness for C5: both implications discharged at concrete inputs (an
invalid call and a valid one). -/
theorem createUser_envelope_invariant_witness :
    ((createUserResolver ⟨some "", some "", some ""⟩ 0 "").data = none ∧
     (createUserResolver ⟨some "", some "", some ""⟩ 0 "").errors ≠ none) ∧
    ((createUserResolver ⟨some "Ada", some "ada@x.com", some "ada"⟩ 0 "").errors = none ∧
     (createUserResolver ⟨some "Ada", some "ada@x.com", some "ada"⟩ 0 "").data ≠ none) :=
  ⟨(createUser_envelope_invariant ⟨some "", some "", some ""⟩ 0 "").1 (by decide),
   (createUser_envelope_invariant ⟨some "Ada", some "ada@x.com", some "ada"⟩ 0 "").2 (by decide)⟩

/-- C6: the category filter keeps a product exactly when the category is an
element of its categories array (for a non-empty category), is always an
order-preserving sub-selection, and is the identity for the empty category. -/
theorem filterByCategory_spec (category : String) (products : List Product) :
    (filterByCategory category products).Sublist products ∧
    (category ≠ "" → ∀ p : Product,
      p ∈ filterByCategory category products ↔ p ∈ products ∧ category ∈ p.categories) ∧
    filterByCategory "" products = products := by
  refine ⟨?_, ?_, filterByCategory_empty products⟩
  · by_cases hc : category = ""
    · subst hc
      rw [filterByCategory_empty]
    · rw [filterByCategory_eq_filter category products hc]
      exact List.filter_sublist products
  · intro hc p
    rw [filterByCategory_eq_filter category products hc, List.mem_filter]
    simp [List.contains, List.elem_iff]

/-- Witness for C6 at category "electronics" over the sample products. -/
theorem filterByCategory_spec_witness :
    (filterByCategory "electronics" allProducts).Sublist allProducts ∧
    (product1 ∈ filterByCategory "electronics" allProducts ↔
      product1 ∈ allProducts ∧ "electronics" ∈ product1.categories) ∧
    filterByCategory "" allProducts = allProducts := by
  obtain ⟨hs, hm, -⟩ := filterByCategory_spec "electronics" allProducts
  exact ⟨hs, hm (by decide) product1, (filterByCategory_spec "" allProducts).2.2⟩

/-- C7: for every collection and every boolean filter value, the active-status
filter of getUsers is stable — the result is a subsequence of the original
collection (same relative order) and never longer than it. -/
theorem filterActive_stable (f : Bool) (C : List User) :
    (filterActive f C).Sublist C ∧ (filterActive f C).length ≤ C.length := by
  rw [filterActive_eq_filter]
  exact ⟨List.filter_sublist C, List.length_filter_le _ C⟩

/-- C8 counterexample: two successful sequential createUser calls whose
time.Now().Unix() values coincide (same clock second) produce the same id
"user_100", refuting that any two sequential successful calls get distinct
ids. -/
theorem createUser_same_second_same_id :
    (createUserResolver ⟨some "Alice", some "a@x.com", some "alice"⟩ 100 "t").success = true ∧
    (createUserResolver ⟨some "Bob", some "b@x.com", some "bob"⟩ 100 "t").success = true ∧
    (createUserResolver ⟨some "Alice", some "a@x.com", some "alice"⟩ 100 "t").data.map
      NewUser.id = some "user_100" ∧
    (createUserResolver ⟨some "Bob", some "b@x.com", some "bob"⟩ 100 "t").data.map
      NewUser.id = some "user_100" := by decide

/-- C8 amended: a successful createUser call returns success=true and a
non-empty id "user_" followed by the decimal Unix timestamp, and the ids of
two successful calls are distinct whenever their timestamps render to
different decimal strings (in particular in different clock seconds); calls
within the same second share an id. -/
theorem createUser_ids_timestamp (i1 i2 : CreateUserInput) (t1 t2 : Int) (f1 f2 : String)
    (h1 : ¬(getStringArg i1.name "" = "" ∨ getStringArg i1.email "" = "" ∨
            getStringArg i1.username "" = ""))
    (h2 : ¬(getStringArg i2.name "" = "" ∨ getStringArg i2.email "" = "" ∨
            getStringArg i2.username "" = ""))
    (ht : toString t1 ≠ toString t2) :
    (createUserResolver i1 t1 f1).success = true ∧
    (createUserResolver i1 t1 f1).data.map NewUser.id = some ("user_" ++ toString t1) ∧
    "user_" ++ toString t1 ≠ "" ∧
    (createUserResolver i1 t1 f1).data.map NewUser.id ≠
      (createUserResolver i2 t2 f2).data.map NewUser.id := by
  rw [createUser_valid_shape i1 t1 f1 h1, createUser_valid_shape i2 t2 f2 h2]
  refine ⟨rfl, rfl, append_left_ne_empty _ _ (by decide), ?_⟩
  intro hcon
  simp only [Option.map_some', Option.some.injEq] at hcon
  exact ht (string_append_left_cancel _ _ _ hcon)

/-- Witness for C8 at two valid inputs in distinct clock seconds (100, 101). -/
theorem createUser_ids_timestamp_witness :
    (createUserResolver ⟨some "Alice", some "alice@example.com", some "alice"⟩ 100 "t1").success
      = true ∧
    (createUserResolver ⟨some "Alice", some "alice@example.com", some "alice"⟩ 100 "t1").data.map
      NewUser.id = some ("user_" ++ toString (100 : Int)) ∧
    "user_" ++ toString (100 : Int) ≠ "" ∧
    (createUserResolver ⟨some "Alice", some "alice@example.com", some "alice"⟩ 100 "t1").data.map
      NewUser.id ≠
      (createUserResolver ⟨some "Bob", some "bob@example.com", some "bob"⟩ 101 "t2").data.map
        NewUser.id :=
  createUser_ids_timestamp ⟨some "Alice", some "alice@example.com", some "alice"⟩
    ⟨some "Bob", some "bob@example.com", some "bob"⟩ 100 101 "t1" "t2"
    (by decide) (by decide) (by decide)

/-- C9: every envelope getProductsPaginated returns carries success=true and a
non-empty message reporting the number of retrieved items, for any page,
pageSize and category on which the resolver returns at all (including empty
result pages). -/
theorem getProductsPaginated_success_message (page pageSize : Int) (category : String)
    (products : List Product) (resp : PaginatedResponse)
    (h : getProductsPaginatedResolver page pageSize category products = some resp) :
    resp.success = true ∧
    resp.message = "Retrieved " ++ toString resp.items.length ++ " products" ∧
    resp.message ≠ "" := by
  simp only [getProductsPaginatedResolver] at h
  by_cases hs : pageSize = 0
  · rw [if_pos hs] at h; cases h
  · rw [if_neg hs] at h
    obtain ⟨pageItems, _, hresp⟩ := Option.map_eq_some'.mp h
    subst hresp
    refine ⟨rfl, ?_, ?_⟩
    · simp [List.length_map]
    · exact append_right_ne_empty _ " products" (by decide)

/-- Witness envelope for C9: the page-1 response over the sample products. -/
def productsPage1Response : PaginatedResponse :=
  { items := ["Laptop - High-performance laptop ($999.99)",
              "Coffee Mug - Ceramic coffee mug ($12.99)",
              "Book - Programming book ($29.99)"]
    totalCount := 3
    pageSize := 5
    currentPage := 1
    totalPages := 1
    hasNextPage := false
    hasPreviousPage := false
    success := true
    message := "Retrieved 3 products" }

/-- Witness for C9 at page 1, pageSize 5, no category. -/
theorem getProductsPaginated_success_message_witness :
    productsPage1Response.success = true ∧
    productsPage1Response.message =
      "Retrieved " ++ toString productsPage1Response.items.length ++ " products" ∧
    productsPage1Response.message ≠ "" :=
  getProductsPaginated_success_message 1 5 "" allProducts productsPage1Response (by decide)

/-- C10: createUser rejects only exact empty strings — for every input whose
three fields are non-empty (whitespace-only or syntactically invalid values
included) it returns success=true with a data record echoing name, email and
username unchanged and active set to true. -/
theorem createUser_echoes_nonempty_fields (name email username : String) (t : Int) (f : String)
    (hn : name ≠ "") (he : email ≠ "") (hu : username ≠ "") :
    createUserResolver ⟨some name, some email, some username⟩ t f =
      { success := true
        message := "User created successfully"
        data := some { id := "user_" ++ toString t, name := name, email := email,
                       username := username, active := true, createdAt := f }
        errors := none } := by
  have h : ¬(getStringArg (some name) "" = "" ∨ getStringArg (some email) "" = "" ∨
             getStringArg (some username) "" = "") := by
    simp [getStringArg, hn, he, hu]
  exact createUser_valid_shape ⟨some name, some email, some username⟩ t f h

/-- Witness for C10 at whitespace-only and syntactically invalid field
values. -/
theorem createUser_echoes_nonempty_fields_witness :
    createUserResolver ⟨some " ", some "not-an-email", some "  "⟩ 7 "now" =
      { success := true
        message := "User created successfully"
        data := some { id := "user_" ++ toString (7 : Int), name := " ",
                       email := "not-an-email", username := "  ", active := true,
                       createdAt := "now" }
        errors := none } :=
  createUser_echoes_nonempty_fields " " "not-an-email" "  " 7 "now"
    (by decide) (by decide) (by decide)
